import Mathlib

/-!
Verification development for the "Seen" media-upload application.

The definitions below are a shallow embedding of the content-verification
pipeline (`verifyContent` in src/lib/gemini/verify.ts together with its
helper module) and of the read/write paths of the `uploads` table used by
the map page, the profile page and the verification route handlers.

External effects (HTTP fetches, the generative-model call, locale-dependent
date formatting, the JSON-engine error message text) are supplied through an
explicit environment record; the control flow, string manipulation, JSON
parsing/repair and bookkeeping are modelled faithfully from the source.
-/

/-! ## JavaScript string primitives used by the source -/

/-- Model of the JavaScript string method `includes`: `hay` contains
`needle` as a contiguous substring (over character lists). -/
def charsInclude (hay needle : List Char) : Bool :=
  match hay with
  | [] => needle.isEmpty
  | _ :: t => needle.isPrefixOf hay || charsInclude t needle

/-- `s.includes(sub)` on strings. -/
def strIncludes (s sub : String) : Bool :=
  charsInclude s.data sub.data

/-- `s.toLowerCase()` (ASCII case mapping, written over the character list
so that it evaluates by kernel reduction). -/
def jsToLowerCase (s : String) : String :=
  String.mk (s.data.map Char.toLower)

/-- `s.startsWith(pre)` (written over the character lists so that it
evaluates by kernel reduction). -/
def jsStartsWith (s pre : String) : Bool :=
  pre.data.isPrefixOf s.data

/-! ## JSON values

`JSON.parse` output is modelled as a tree; numbers keep their raw source
token (the claims never compare numeric values). -/

inductive Json where
  | null
  | bool (b : Bool)
  | num (raw : String)
  | str (s : String)
  | arr (elems : List Json)
  | obj (fields : List (String × Json))

mutual
/-- Structural equality on JSON trees; models the strict-equality
comparisons the source performs on primitive JSON fields (the fields it
compares are strings, for which JavaScript strict equality is value
equality). -/
def jsonBeq : Json → Json → Bool
  | .null, .null => true
  | .bool a, .bool b => a == b
  | .num a, .num b => a == b
  | .str a, .str b => a == b
  | .arr a, .arr b => jsonBeqList a b
  | .obj a, .obj b => jsonBeqFields a b
  | _, _ => false
def jsonBeqList : List Json → List Json → Bool
  | [], [] => true
  | x :: xs, y :: ys => jsonBeq x y && jsonBeqList xs ys
  | _, _ => false
def jsonBeqFields : List (String × Json) → List (String × Json) → Bool
  | [], [] => true
  | (k1, v1) :: xs, (k2, v2) :: ys => k1 == k2 && jsonBeq v1 v2 && jsonBeqFields xs ys
  | _, _ => false
end

/-- JavaScript property access `o[k]` on a parsed JSON object: later
duplicate keys win, access on a non-object yields `undefined` (`none`). -/
def jsonGet (j : Json) (k : String) : Option Json :=
  match j with
  | .obj fs => fs.foldl (fun acc kv => if kv.1 = k then some kv.2 else acc) none
  | _ => none

/-- Truthiness of a raw JSON number token: falsy exactly when its numeric
value is zero (every mantissa digit is 0). -/
def numRawTruthy (raw : String) : Bool :=
  !((raw.takeWhile (fun c => c ≠ 'e' && c ≠ 'E')).all
      (fun c => c = '0' || c = '-' || c = '+' || c = '.'))

/-- JavaScript truthiness of a parsed JSON value. -/
def jsTruthy : Json → Bool
  | .null => false
  | .bool b => b
  | .num raw => numRawTruthy raw
  | .str s => s ≠ ""
  | .arr _ => true
  | .obj _ => true

/-- Truthiness of a possibly-absent (`undefined`) JSON field. -/
def jsTruthyOpt : Option Json → Bool
  | some v => jsTruthy v
  | none => false

mutual
/-- JavaScript string coercion of a JSON value, as used when the source
interpolates parsed fields into template strings. The fields so coerced are
strings in every schema-conforming model reply; the other cases follow the
JavaScript `String(...)` conversion (numbers approximated by their raw
token). -/
def jsToString : Json → String
  | .null => "null"
  | .bool true => "true"
  | .bool false => "false"
  | .num raw => raw
  | .str s => s
  | .arr xs => String.intercalate "," (jsToStringList xs)
  | .obj _ => "[object Object]"
def jsToStringList : List Json → List String
  | [] => []
  | x :: xs => jsToString x :: jsToStringList xs
end

/-! ## JSON.parse

A fuel-indexed recursive-descent parser for the JSON grammar, modelling
`JSON.parse` (strict: no trailing commas, no literal control characters in
strings, double-quoted strings only). -/

/-- JSON insignificant whitespace. -/
def jsonWsChar (c : Char) : Bool :=
  c = ' ' || c = '\t' || c = '\n' || c = '\r'

/-- Skip insignificant whitespace. -/
def skipWs : List Char → List Char
  | c :: cs => if jsonWsChar c then skipWs cs else c :: cs
  | [] => []

/-- Hexadecimal digit value. -/
def hexVal (c : Char) : Option Nat :=
  if '0' ≤ c ∧ c ≤ '9' then some (c.toNat - '0'.toNat)
  else if 'a' ≤ c ∧ c ≤ 'f' then some (c.toNat - 'a'.toNat + 10)
  else if 'A' ≤ c ∧ c ≤ 'F' then some (c.toNat - 'A'.toNat + 10)
  else none

/-- Parse the body of a JSON string literal (after the opening quote),
returning the unescaped characters and the remainder after the closing
quote. -/
def parseStringBody : List Char → Option (List Char × List Char)
  | [] => none
  | '"' :: rest => some ([], rest)
  | '\\' :: e :: rest =>
    if e = 'u' then
      match rest with
      | a :: b :: c :: d :: rest2 =>
        match hexVal a, hexVal b, hexVal c, hexVal d with
        | some x, some y, some z, some w =>
          match parseStringBody rest2 with
          | some (cs, rem) => some (Char.ofNat (((x * 16 + y) * 16 + z) * 16 + w) :: cs, rem)
          | none => none
        | _, _, _, _ => none
      | _ => none
    else
      match
        (if e = '"' then some '"'
         else if e = '\\' then some '\\'
         else if e = '/' then some '/'
         else if e = 'b' then some (Char.ofNat 8)
         else if e = 'f' then some (Char.ofNat 12)
         else if e = 'n' then some '\n'
         else if e = 'r' then some '\r'
         else if e = 't' then some '\t'
         else none) with
      | some c =>
        match parseStringBody rest with
        | some (cs, rem) => some (c :: cs, rem)
        | none => none
      | none => none
  | c :: rest =>
    if c.toNat < 32 then none
    else
      match parseStringBody rest with
      | some (cs, rem) => some (c :: cs, rem)
      | none => none

/-- Digit test. -/
def isDigitChar (c : Char) : Bool := '0' ≤ c && c ≤ '9'

/-- Parse a JSON number token starting at the head, returning the raw token
and the remainder. -/
def parseNumberRaw (cs : List Char) : Option (List Char × List Char) :=
  let (sign, afterSign) :=
    match cs with
    | '-' :: t => (['-'], t)
    | _ => ([], cs)
  match afterSign with
  | [] => none
  | c :: _ =>
    if !isDigitChar c then none
    else
      let intPart := afterSign.takeWhile isDigitChar
      let afterInt := afterSign.dropWhile isDigitChar
      -- JSON forbids leading zeros on a multi-digit integer part
      if intPart.length > 1 ∧ intPart.headD '0' = '0' then none
      else
        let (fracPart, afterFrac) :=
          match afterInt with
          | '.' :: t =>
            let ds := t.takeWhile isDigitChar
            if ds.isEmpty then ([], afterInt) else ('.' :: ds, t.dropWhile isDigitChar)
          | _ => ([], afterInt)
        if afterInt ≠ [] ∧ afterInt.headD ' ' = '.' ∧ fracPart = [] then none
        else
          match afterFrac with
          | e :: t =>
            if e = 'e' ∨ e = 'E' then
              let (es, t2) :=
                match t with
                | '+' :: t2 => (['+'], t2)
                | '-' :: t2 => (['-'], t2)
                | _ => ([], t)
              let ds := t2.takeWhile isDigitChar
              if ds.isEmpty then none
              else some (sign ++ intPart ++ fracPart ++ e :: es ++ ds, t2.dropWhile isDigitChar)
            else some (sign ++ intPart ++ fracPart, afterFrac)
          | [] => some (sign ++ intPart ++ fracPart, afterFrac)

/-- Match a literal keyword. -/
def parseKeyword (lit : List Char) (cs : List Char) : Option (List Char) :=
  if lit.isPrefixOf cs then some (cs.drop lit.length) else none

mutual
/-- Parse one JSON value (fuel-indexed). -/
def parseValue : Nat → List Char → Option (Json × List Char)
  | 0, _ => none
  | Nat.succ fuel, cs =>
    match skipWs cs with
    | [] => none
    | c :: cs2 =>
      if c = 'n' then (parseKeyword "ull".data cs2).map (fun r => (Json.null, r))
      else if c = 't' then (parseKeyword "rue".data cs2).map (fun r => (Json.bool true, r))
      else if c = 'f' then (parseKeyword "alse".data cs2).map (fun r => (Json.bool false, r))
      else if c = '"' then
        match parseStringBody cs2 with
        | some (body, rest) => some (Json.str (String.mk body), rest)
        | none => none
      else if c = '[' then
        match skipWs cs2 with
        | ']' :: rest => some (Json.arr [], rest)
        | _ =>
          match parseArrayItems fuel cs2 with
          | some (xs, rest) => some (Json.arr xs, rest)
          | none => none
      else if c = '{' then
        match skipWs cs2 with
        | '}' :: rest => some (Json.obj [], rest)
        | _ =>
          match parseObjectItems fuel cs2 with
          | some (fs, rest) => some (Json.obj fs, rest)
          | none => none
      else
        match parseNumberRaw (c :: cs2) with
        | some (raw, rest) => some (Json.num (String.mk raw), rest)
        | none => none

/-- Parse the comma-separated items of a (non-empty) array, consuming the
closing bracket. -/
def parseArrayItems : Nat → List Char → Option (List Json × List Char)
  | 0, _ => none
  | Nat.succ fuel, cs =>
    match parseValue fuel cs with
    | some (v, rest) =>
      match skipWs rest with
      | ',' :: rest2 =>
        match parseArrayItems fuel rest2 with
        | some (vs, rest3) => some (v :: vs, rest3)
        | none => none
      | ']' :: rest2 => some ([v], rest2)
      | _ => none
    | none => none

/-- Parse the comma-separated members of a (non-empty) object, consuming
the closing brace. -/
def parseObjectItems : Nat → List Char → Option (List (String × Json) × List Char)
  | 0, _ => none
  | Nat.succ fuel, cs =>
    match skipWs cs with
    | '"' :: cs2 =>
      match parseStringBody cs2 with
      | some (key, rest) =>
        match skipWs rest with
        | ':' :: rest2 =>
          match parseValue fuel rest2 with
          | some (v, rest3) =>
            match skipWs rest3 with
            | ',' :: rest4 =>
              match parseObjectItems fuel rest4 with
              | some (fs, rest5) => some ((String.mk key, v) :: fs, rest5)
              | none => none
            | '}' :: rest4 => some ([(String.mk key, v)], rest4)
            | _ => none
          | none => none
        | _ => none
      | none => none
    | _ => none
end

/-- Model of `JSON.parse`: succeeds iff the whole input (modulo surrounding
whitespace) is one JSON value. -/
def jsonParse (s : String) : Option Json :=
  match parseValue (s.length + 1) s.data with
  | some (v, rest) => if skipWs rest = [] then some v else none
  | none => none

example : jsonParse "\x7b\"a\": 1\x7d" = some (Json.obj [("a", Json.num "1")]) := rfl

example : jsonParse "\x7b\"a\": [true, null]\x7d" =
    some (Json.obj [("a", Json.arr [Json.bool true, Json.null])]) := rfl

example : jsonParse "\x7b\"a\": 1,\x7d" = none := rfl

/-! ## The textual JSON repair pass (verify.ts lines 359-368)

Three JavaScript regex replaces, applied in source order:
1. `s.replace(/,(\s*[}\]])/g, "$1")` strips a comma whose next
   non-whitespace character is a closing brace/bracket;
2. `.replace(/```json\s*/g, "").replace(/```\s*/g, "")` strips markdown
   code-fence markers and trailing whitespace (written below with the
   tick character spelled `Char.ofNat 96`);
3. `.replace(/"([^"]*\n[^"]*?)"/g, m => m.replace(/\n/g, "\\n"))` escapes
   literal newlines inside a quote-delimited span. -/

/-- The JavaScript regex whitespace class `\s` (ASCII part; the claims
never exercise the Unicode space characters it also contains). -/
def jsRegexWs (c : Char) : Bool :=
  c = ' ' || c = '\t' || c = '\n' || c = '\r' || c = Char.ofNat 12 || c = Char.ofNat 11

/-- Dropping a matched run never lengthens a list (termination helper). -/
theorem dropWhileLenLe (p : Char → Bool) (l : List Char) : (l.dropWhile p).length ≤ l.length :=
  (List.dropWhile_sublist p (l := l)).length_le

/-- First repair: global replace of `,(\s*[}\]])` by the captured group,
scanning left to right. On a match the JavaScript engine resumes after the
closing bracket; resuming right after the removed comma instead is
equivalent, because every further match must begin with a comma and the
skipped span (whitespace plus one bracket) contains none. -/
def stripTrailingCommas : List Char → List Char
  | [] => []
  | c :: cs =>
    if c = ',' then
      match cs.dropWhile jsRegexWs with
      | b :: _ =>
        if b = '}' ∨ b = ']' then stripTrailingCommas cs
        else c :: stripTrailingCommas cs
      | [] => c :: stripTrailingCommas cs
    else c :: stripTrailingCommas cs

/-- The markdown code-fence character (backquote, U+0060). -/
def tickChar : Char := Char.ofNat 96

/-- Whether the characters after an initial fence character complete the
seven-character opener `` ```json `` (two more fence characters then the
word `json`). -/
def fenceJsonHead : List Char → Bool
  | c2 :: c3 :: 'j' :: 's' :: 'o' :: 'n' :: _ => c2 = tickChar && c3 = tickChar
  | _ => false

/-- Fuel-indexed scanner for the `/```json\s*/g` replace; every step
consumes at least one character, so the initial length is enough fuel. -/
def stripFenceJsonGo : Nat → List Char → List Char
  | 0, l => l
  | _ + 1, [] => []
  | fuel + 1, c :: cs =>
    if c = tickChar ∧ fenceJsonHead cs = true then
      stripFenceJsonGo fuel ((cs.drop 6).dropWhile jsRegexWs)
    else c :: stripFenceJsonGo fuel cs

/-- Second repair, first pass: global replace of the fence-opener followed
by `json` and trailing `\s*` with nothing. -/
def stripFenceJson (l : List Char) : List Char :=
  stripFenceJsonGo l.length l

/-- Whether the characters after an initial fence character complete the
three-character fence marker. -/
def fenceHead : List Char → Bool
  | c2 :: c3 :: _ => c2 = tickChar && c3 = tickChar
  | _ => false

/-- Fuel-indexed scanner for the `/```\s*/g` replace. -/
def stripFenceGo : Nat → List Char → List Char
  | 0, l => l
  | _ + 1, [] => []
  | fuel + 1, c :: cs =>
    if c = tickChar ∧ fenceHead cs = true then
      stripFenceGo fuel ((cs.drop 2).dropWhile jsRegexWs)
    else c :: stripFenceGo fuel cs

/-- Second repair, second pass: global replace of the three-character
fence marker and trailing `\s*` with nothing. -/
def stripFence (l : List Char) : List Char :=
  stripFenceGo l.length l

/-- Replace every literal newline by the two characters `\` `n`, as the
replacement callback `m.replace(/\n/g, "\\n")` does. -/
def escapeNewlines : List Char → List Char
  | [] => []
  | c :: cs => if c = '\n' then '\\' :: 'n' :: escapeNewlines cs else c :: escapeNewlines cs

/-- Fuel-indexed scanner for the third repair. For the regex
`"([^"]*\n[^"]*?)"`, a match starting at a quote extends exactly to the
next quote (the character class excludes quotes) and requires a literal
newline in between; the whole match has its newlines escaped and scanning
resumes after it, otherwise the engine advances one character. -/
def fixNewlinesGo : Nat → List Char → List Char
  | 0, l => l
  | _ + 1, [] => []
  | fuel + 1, c :: cs =>
    if c = '"' then
      let body := cs.takeWhile (fun x => x ≠ '"')
      match cs.dropWhile (fun x => x ≠ '"') with
      | _ :: rest =>
        if body.contains '\n' then
          '"' :: (escapeNewlines body ++ '"' :: fixNewlinesGo fuel rest)
        else c :: fixNewlinesGo fuel cs
      | [] => c :: fixNewlinesGo fuel cs
    else c :: fixNewlinesGo fuel cs

/-- Third repair: escape literal newlines inside quote-delimited spans. -/
def fixNewlinesInStrings (l : List Char) : List Char :=
  fixNewlinesGo l.length l

/-- The complete repair pass of verify.ts lines 359-368, in source
order. -/
def fixJson (s : String) : String :=
  String.mk (fixNewlinesInStrings (stripFence (stripFenceJson (stripTrailingCommas s.data))))

/-! ## Extraction of the JSON span (verify.ts line 342)

`text.match(/\{[\s\S]*\}/)`: the greedy pattern matches from the first
opening brace that has a closing brace after it, up to the last closing
brace of the whole text. -/

/-- Index of the first occurrence of `c`, if any. -/
def firstIdxOf (cs : List Char) (c : Char) : Option Nat :=
  cs.findIdx? (fun x => x = c)

/-- Index of the last occurrence of `c`, if any. -/
def lastIdxOf (cs : List Char) (c : Char) : Option Nat :=
  match firstIdxOf cs.reverse c with
  | some k => some (cs.length - 1 - k)
  | none => none

/-- Model of `text.match(/\{[\s\S]*\}/)`, returning the matched span. -/
def jsonMatch (text : String) : Option String :=
  let cs := text.data
  match firstIdxOf cs '{', lastIdxOf cs '}' with
  | some i, some j =>
    if i < j then some (String.mk ((cs.drop i).take (j - i + 1))) else none
  | _, _ => none

example : fixJson "\x7b\"a\": 1,\x7d" = "\x7b\"a\": 1\x7d" := rfl

example : fixJson "\x7b\"a\":\",]\"\x7d" = "\x7b\"a\":\"]\"\x7d" := rfl

example : jsonMatch "xx\x7b\"a\":1\x7dyy" = some "\x7b\"a\":1\x7d" := rfl

example : jsonMatch "no braces" = none := rfl

/-! ## verification-helpers: sunrise/sunset (getSunriseSunset)

The HTTP fetch and the JavaScript Date methods are external; the
environment supplies the UTC hour/minute components the source reads off
the parsed API instants, the local hour/minute of the capture date, and
the ISO renderings. The `isDaytime` computation and the error fallback are
transcribed from the source. -/

structure SunriseSunsetData where
  sunrise : String
  sunset : String
  isDaytime : Bool
  error : Option String
deriving DecidableEq

/-- A successful sunrise-sunset.org lookup, reduced to what the source
reads from it. -/
structure SunApiOk where
  sunriseHour : Nat
  sunriseMinute : Nat
  sunsetHour : Nat
  sunsetMinute : Nat
  sunriseIso : String
  sunsetIso : String
deriving DecidableEq

/-- Outcome of the sunrise-sunset.org fetch: a thrown error (response not
ok, status not OK, or network failure) or parsed data. -/
inductive SunApi where
  | fail (msg : String)
  | ok (d : SunApiOk)
deriving DecidableEq

/-- Model of `getSunriseSunset` (verification-helpers.ts): on success the
capture time-of-day (local frame) is compared against the sunrise/sunset
time-of-day (UTC components of the API instants) with the midnight-spanning
disjunctive test; every failure is caught and degrades to
`isDaytime := true` plus an error tag. -/
def getSunriseSunset (api : SunApi) (captureHour captureMinute : Nat) :
    SunriseSunsetData :=
  match api with
  | .fail msg => { sunrise := "", sunset := "", isDaytime := true, error := some msg }
  | .ok d =>
    let captureTime := captureHour * 60 + captureMinute
    let sunriseTime := d.sunriseHour * 60 + d.sunriseMinute
    let sunsetTime := d.sunsetHour * 60 + d.sunsetMinute
    let isDaytime :=
      if sunsetTime > sunriseTime then
        decide (captureTime ≥ sunriseTime) && decide (captureTime ≤ sunsetTime)
      else
        decide (captureTime ≥ sunriseTime) || decide (captureTime ≤ sunsetTime)
    { sunrise := d.sunriseIso, sunset := d.sunsetIso, isDaytime := isDaytime,
      error := none }

structure WeatherData where
  description : String
  temperature : Int
  conditions : List String
deriving DecidableEq

/-! ## The verification pipeline (verifyContent, verify.ts lines 21-505) -/

inductive FileType where
  | image
  | video
deriving DecidableEq

/-- Externally observable side effects of one pipeline run. -/
inductive Ev where
  | sunCall
  | weatherCall
  | geocodeCall
  | imageFetchCall
  | videoUploadCall
  | modelCall (attempt : Nat)
  | waitMs (ms : Nat)
  | remoteDelete (uri : String)
deriving DecidableEq

/-- One generative-model invocation, as seen by the retry loop: either the
call (or reading its response) throws, or it yields the response text. -/
inductive ModelCall where
  | throws (msg : String)
  | replies (text : String)
deriving DecidableEq

/-- Environment of one `verifyContent` run: results of every external
call, plus the locale/engine dependent string renderings the source embeds
into messages. -/
structure VerifyEnv where
  sunApi : SunApi
  captureHour : Nat
  captureMinute : Nat
  weather : Option WeatherData
  geocode : Option String
  imageFetch : Option String
  videoUpload : Except String String
  modelAt : Nat → ModelCall
  localeTime : String → String
  parseErrMsg : String → String

/-- JavaScript truthiness of an optional numeric argument (zero and absent
are both falsy). Coordinates are modelled as rationals; the source type is
`number | null | undefined`. -/
def numTruthy : Option ℚ → Bool
  | some q => q ≠ 0
  | none => false

/-- JavaScript truthiness of an optional string argument. -/
def strTruthy : Option String → Bool
  | some s => s ≠ ""
  | none => false

/-- The daytime vocabulary check of verify.ts lines 57-59. -/
def mentionsDaytime (descLower : String) : Bool :=
  strIncludes descLower "sunny" || strIncludes descLower "daylight" ||
  strIncludes descLower "afternoon" || strIncludes descLower "morning" ||
  strIncludes descLower "day"

/-- The nighttime vocabulary check of verify.ts lines 60-61. -/
def mentionsNighttime (descLower : String) : Bool :=
  strIncludes descLower "night" || strIncludes descLower "dark" ||
  strIncludes descLower "evening" || strIncludes descLower "midnight"

/-- The daytime-mismatch alert string of verify.ts line 66. -/
def daytimeAlert (timeStr : String) : String :=
  "Description mentions daytime, but timestamp (" ++ timeStr ++
    ") indicates it was after sunset at this location"

/-- The nighttime-mismatch alert string of verify.ts line 70. -/
def nighttimeAlert (timeStr : String) : String :=
  "Description mentions nighttime, but timestamp (" ++ timeStr ++
    ") indicates it was during daylight hours"

/-- The expected-lighting verification factor of verify.ts lines 75-77. -/
def lightingFactor (timeStr : String) (d : SunriseSunsetData)
    (localeTime : String → String) : String :=
  "Expected lighting at " ++ timeStr ++ ": " ++
    (if d.isDaytime then "Daytime/Daylight" else "Nighttime/Dark") ++
    " (Sunrise: " ++ localeTime d.sunrise ++ ", Sunset: " ++ localeTime d.sunset ++ ")"

/-- The pre-verification lexical checks of verify.ts lines 54-78: the
pre-computed issue list and verification-factor list, in push order. -/
def preVerificationChecks (sunriseSunsetData : Option SunriseSunsetData)
    (description : String) (captureDate : Option String)
    (localeTime : String → String) : List String × List String :=
  match sunriseSunsetData with
  | some d =>
    if d.error.isNone then
      let descLower := if description ≠ "" then jsToLowerCase description else ""
      let timeStr := localeTime (captureDate.getD "")
      let issues :=
        (if description ≠ "" ∧ mentionsDaytime descLower ∧ d.isDaytime = false then
          [daytimeAlert timeStr] else []) ++
        (if description ≠ "" ∧ mentionsNighttime descLower ∧ d.isDaytime = true then
          [nighttimeAlert timeStr] else [])
      (issues, [lightingFactor timeStr d localeTime])
    else ([], [])
  | none => ([], [])

/-- The video MIME lookup table of verify.ts lines 82-88. -/
def videoMimeLookup (ext : String) : Option String :=
  if ext = "mp4" then some "video/mp4"
  else if ext = "mov" then some "video/quicktime"
  else if ext = "m4v" then some "video/mp4"
  else if ext = "avi" then some "video/x-msvideo"
  else if ext = "webm" then some "video/webm"
  else none

/-- `imageUrl.split(".").pop()?.toLowerCase()` then the lookup with
`video/mp4` fallback (verify.ts lines 81-89); `split` never yields an
empty array, so `pop` always produces a (possibly empty, hence falsy)
string. -/
def videoMimeTypeOf (url : String) : String :=
  let ext := jsToLowerCase ((url.splitOn ".").getLastD "")
  if ext = "" then "video/mp4" else (videoMimeLookup ext).getD "video/mp4"

/-- One attempt of the retry loop (verify.ts lines 306-381): model call,
JSON-span extraction, strict parse, then repaired parse; each failure mode
produces the error the source throws for it. -/
def attemptOutcome (parseErrMsg : String → String) (call : ModelCall) :
    Except String Json :=
  match call with
  | .throws m => .error m
  | .replies text =>
    match jsonMatch text with
    | none =>
      .error ("Gemini response did not contain valid JSON. Raw response: " ++
        text.take 200)
    | some raw =>
      match jsonParse raw with
      | some p => .ok p
      | none =>
        match jsonParse (fixJson raw) with
        | some p => .ok p
        | none =>
          .error ("Failed to parse Gemini JSON response: " ++ parseErrMsg raw ++
            ". JSON excerpt: " ++ ((raw.drop 1700).take 150))

/-- The delete events issued by one `deleteGeminiFile` cleanup site. -/
def deleteEvents : Option String → List Ev
  | some uri => [Ev.remoteDelete uri]
  | none => []

/-- The retry loop of verify.ts lines 300-402, invoked with `attempt = 1`
and `remaining = MAX_RETRIES = 3`; `remaining = 0` is unreachable from the
wrapper. On the final attempt the loop deletes the staged video (if any)
and rethrows the last error; otherwise it waits `2^(attempt-1)` seconds
and retries. -/
def retryFrom (modelAt : Nat → ModelCall) (parseErrMsg : String → String)
    (videoUri : Option String) : Nat → Nat → List Ev × Except String Json
  | _, 0 => ([], .error "unreachable: the loop runs at least one attempt")
  | attempt, rem + 1 =>
    match attemptOutcome parseErrMsg (modelAt attempt) with
    | .ok p => ([Ev.modelCall attempt], .ok p)
    | .error m =>
      if rem = 0 then
        (Ev.modelCall attempt :: deleteEvents videoUri, .error m)
      else
        let waitTime := Nat.pow 2 (attempt - 1) * 1000
        let next := retryFrom modelAt parseErrMsg videoUri (attempt + 1) rem
        (Ev.modelCall attempt :: Ev.waitMs waitTime :: next.1, next.2)

example :
    retryFrom (fun _ => ModelCall.throws "x") (fun _ => "e") (some "u") 1 3 =
      ([Ev.modelCall 1, Ev.waitMs 1000, Ev.modelCall 2, Ev.waitMs 2000,
        Ev.modelCall 3, Ev.remoteDelete "u"], .error "x") := rfl

/-! ## The result normalizer (verify.ts lines 416-491) -/

structure VerificationResult where
  status : Json
  verified : Bool
  result : String
  issues : Option (List String)
  verificationFactors : Option (List String)

/-- `ensureArray` of verify.ts lines 417-421, on a possibly-absent parsed
field. -/
def ensureArray : Option Json → List Json
  | some (.arr xs) => xs
  | some (.str s) => [.str s]
  | _ => []

/-- JavaScript strict equality between two possibly-absent JSON fields, as
in `parsed.analysis !== parsed.result` (the compared fields are strings in
every schema-conforming reply, where strict equality is value equality). -/
def jsStrictEqOpt : Option Json → Option Json → Bool
  | some a, some b => jsonBeq a b
  | none, none => true
  | _, _ => false

/-- `parsed.status === "verified"` (verify.ts line 487). -/
def statusIsVerified (parsed : Json) : Bool :=
  match jsonGet parsed "status" with
  | some v => jsonBeq v (.str "verified")
  | none => false

/-- `parsed.status || "unverified"` (verify.ts line 486). -/
def statusField (parsed : Json) : Json :=
  match jsonGet parsed "status" with
  | some v => if jsTruthy v then v else .str "unverified"
  | none => .str "unverified"

/-- One optional section of the composited result text: blank line, header
line, one bulleted line per item. -/
def sectionText (header bullet : String) (items : List Json) : String :=
  "\n\n" ++ header ++ "\n" ++
    String.intercalate "\n" (items.map (fun f => bullet ++ jsToString f))

/-- The composited human-readable result text of verify.ts lines 435-483:
primary summary, then the conditional sections in source order. -/
def buildResultText (parsed : Json) (fileType : FileType) : String :=
  let resultF := jsonGet parsed "result"
  let analysisF := jsonGet parsed "analysis"
  let base :=
    if jsTruthyOpt resultF then jsToString (resultF.getD .null)
    else if jsTruthyOpt analysisF then jsToString (analysisF.getD .null)
    else "Verification complete"
  let textBasedFindings := ensureArray (jsonGet parsed "textBasedFindings")
  let t1 :=
    if textBasedFindings.length > 0 then
      sectionText "📊 LEVEL 1 - Trusted Source Verification:" "✓ " textBasedFindings
    else ""
  let webSearchResults := ensureArray (jsonGet parsed "webSearchResults")
  let t2 :=
    if webSearchResults.length > 0 then
      sectionText "🌐 Web Search Findings:" "• " webSearchResults
    else ""
  let sourcesUsed := ensureArray (jsonGet parsed "sourcesUsed")
  let descriptiveSources := sourcesUsed.filter (fun s =>
    !(jsStartsWith (jsToString s) "http://") && !(jsStartsWith (jsToString s) "https://"))
  let t3 :=
    if sourcesUsed.length > 0 then
      if descriptiveSources.length > 0 then
        sectionText "📚 Sources:" "• " descriptiveSources
      else ""
    else ""
  let analysisFindings := ensureArray (jsonGet parsed "imageAnalysisFindings")
  let label := if fileType = .video then "VIDEO" else "IMAGE"
  let t4 :=
    if analysisFindings.length > 0 then
      sectionText ("🖼️ LEVEL 2 - " ++ label ++ " Analysis:") "• " analysisFindings
    else ""
  let claimsIdentified := ensureArray (jsonGet parsed "claimsIdentified")
  let t5 :=
    if claimsIdentified.length > 0 then
      sectionText "Claims Identified:" "• " claimsIdentified
    else ""
  let recommendedActions := ensureArray (jsonGet parsed "recommendedActions")
  let t6 :=
    if recommendedActions.length > 0 then
      sectionText "⚠️ Recommended Additional Verification:" "• " recommendedActions
    else ""
  let t7 :=
    if jsTruthyOpt analysisF ∧ jsStrictEqOpt analysisF resultF = false then
      "\n\nDetailed Analysis:\n" ++ jsToString (analysisF.getD .null)
    else ""
  base ++ t1 ++ t2 ++ t3 ++ t4 ++ t5 ++ t6 ++ t7

/-- The returned record of verify.ts lines 485-491, given the pre-computed
issue and factor lists. -/
def normalizeResult (parsed : Json) (fileType : FileType)
    (issues verificationFactors : List String) : VerificationResult :=
  let allIssues :=
    issues ++ (ensureArray (jsonGet parsed "additionalIssues")).map jsToString
  let allVerificationFactors :=
    verificationFactors ++
      (ensureArray (jsonGet parsed "verificationsPerformed")).map jsToString
  { status := statusField parsed
  , verified := statusIsVerified parsed
  , result := buildResultText parsed fileType
  , issues := if allIssues.length > 0 then some allIssues else none
  , verificationFactors :=
      if allVerificationFactors.length > 0 then some allVerificationFactors
      else none }

/-- The full pipeline `verifyContent` (verify.ts lines 21-505): context
gathering behind the truthiness guard, the lexical pre-checks, media
staging, the retry loop, the two cleanup sites, the outer catch that wraps
any thrown error as `Verification failed: ...`. Returns the emitted event
trace alongside the outcome. -/
def verifyContent (env : VerifyEnv) (description imageUrl : String)
    (fileType : FileType) (latitude longitude : Option ℚ)
    (captureDate : Option String) :
    List Ev × Except String VerificationResult :=
  let gatherCtx := numTruthy latitude && numTruthy longitude && strTruthy captureDate
  let ctxEvents :=
    if gatherCtx then [Ev.sunCall, Ev.weatherCall, Ev.geocodeCall] else []
  let sunriseSunsetData :=
    if gatherCtx then
      some (getSunriseSunset env.sunApi env.captureHour env.captureMinute)
    else none
  let pre := preVerificationChecks sunriseSunsetData description captureDate env.localeTime
  match fileType with
  | .image =>
    match env.imageFetch with
    | none =>
      (ctxEvents ++ [Ev.imageFetchCall],
       .error ("Verification failed: Failed to fetch image from URL: " ++ imageUrl))
    | some _ =>
      let loop := retryFrom env.modelAt env.parseErrMsg none 1 3
      match loop.2 with
      | .ok parsed =>
        (ctxEvents ++ [Ev.imageFetchCall] ++ loop.1,
         .ok (normalizeResult parsed .image pre.1 pre.2))
      | .error m =>
        (ctxEvents ++ [Ev.imageFetchCall] ++ loop.1,
         .error ("Verification failed: " ++ m))
  | .video =>
    match env.videoUpload with
    | .error m =>
      (ctxEvents ++ [Ev.videoUploadCall], .error ("Verification failed: " ++ m))
    | .ok uri =>
      let loop := retryFrom env.modelAt env.parseErrMsg (some uri) 1 3
      match loop.2 with
      | .ok parsed =>
        (ctxEvents ++ [Ev.videoUploadCall] ++ loop.1 ++ [Ev.remoteDelete uri],
         .ok (normalizeResult parsed .video pre.1 pre.2))
      | .error m =>
        (ctxEvents ++ [Ev.videoUploadCall] ++ loop.1 ++ [Ev.remoteDelete uri],
         .error ("Verification failed: " ++ m))

/-! ## The uploads table and its read/write paths

`UploadRow` mirrors the `uploads` schema (src/types/database.ts and
src/supabase/SETUP_DATABASE.sql); a database is a list of rows. Ordering
clauses (`order by created_at desc`) are elided: they permute results and
no claim concerns ordering. -/

structure UploadRow where
  id : String
  user_id : String
  file_url : String
  file_type : FileType
  description : String
  latitude : Option ℚ
  longitude : Option ℚ
  location_source : String
  location_name : Option String
  capture_date : Option String
  ai_verified : Bool
  ai_verification_result : Option String
  verification_status : String
  created_at : String
  deleted_at : Option String
deriving DecidableEq

/-- Modelled from the spec: the Supabase client modules
(`@/lib/supabase/server`, `@/lib/supabase/client`) are not in the source
tree, only their callers are. Per the spec the pipeline treats persistence
as a get-one/update-one contract over the `uploads` table, and the repo
configures only the public anon key, whose reads are subject to row-level
security. The only SELECT policy of the table
(src/supabase/SETUP_DATABASE.sql: "Uploads are viewable by everyone" ...
USING (deleted_at IS NULL)) therefore restricts every read to rows whose
soft-delete timestamp is null. -/
def rlsSelectVisible (db : List UploadRow) : List UploadRow :=
  db.filter (fun u => u.deleted_at = none)

/-- The map page listing (MapPage): `select * ... .is("deleted_at", null)`
composed with the row-security SELECT filter. -/
def mapPageUploads (db : List UploadRow) : List UploadRow :=
  (rlsSelectVisible db).filter (fun u => u.deleted_at = none)

/-- The profile page listing (ProfilePage): rows of one owner with
`.is("deleted_at", null)`, composed with the row-security SELECT filter. -/
def profilePageUploads (db : List UploadRow) (uid : String) : List UploadRow :=
  ((rlsSelectVisible db).filter (fun u => u.user_id = uid)).filter
    (fun u => u.deleted_at = none)

/-- The single-record load of the verification POST handler
(`.eq("id", uploadId).single()`): exactly one visible row or an error. -/
def verifyPostLoad (db : List UploadRow) (uploadId : String) : Option UploadRow :=
  match (rlsSelectVisible db).filter (fun u => u.id = uploadId) with
  | [u] => some u
  | _ => none

/-- The selection made by the batch verification GET handler
(`.is("ai_verification_result", null).limit(10)`). -/
def verifyBatchSelect (db : List UploadRow) : List UploadRow :=
  ((rlsSelectVisible db).filter (fun u => u.ai_verification_result = none)).take 10

/-- The fields both verification route handlers write back. The
`verification_status` column value is kept as JSON because the success
path stores whatever `parsed.status || "unverified"` produced. -/
structure UploadUpdate where
  ai_verified : Bool
  ai_verification_result : Option String
  verification_status : Json

/-- The result text persisted on success (upload route, POST lines
1246-1254 and GET lines 1309-1317): result, then the issue block, then the
factor block, joined and trimmed. -/
def formatResultText (v : VerificationResult) : String :=
  (v.result ++
    (match v.issues with
     | some is =>
       if is.length > 0 then
         "\n\nIssues:\n" ++ String.intercalate "\n" (is.map (fun i => "• " ++ i))
       else ""
     | none => "") ++
    (match v.verificationFactors with
     | some fs =>
       if fs.length > 0 then
         "\n\nVerification Factors:\n" ++
           String.intercalate "\n" (fs.map (fun f => "• " ++ f))
       else ""
     | none => "")).trim

/-- The database write both route handlers perform once `verifyContent`
settles (POST lines 1229-1264, GET batch body lines 1319-1346): a thrown
verification error is persisted as `ai_verified: false`, result text
`Verification failed: <message>`, status `"unverified"`; a returned result
is persisted with its own fields. -/
def postVerifyUpdate (outcome : Except String VerificationResult) : UploadUpdate :=
  match outcome with
  | .error m =>
    { ai_verified := false
    , ai_verification_result := some ("Verification failed: " ++ m)
    , verification_status := .str "unverified" }
  | .ok v =>
    { ai_verified := v.verified
    , ai_verification_result := some (formatResultText v)
    , verification_status := v.status }

/-! ## Auxiliary predicates and fixtures used by the theorems -/

/-- Context-gathering events (sunrise/sunset, weather, reverse geocode). -/
def isCtxEv : Ev → Bool
  | .sunCall => true
  | .weatherCall => true
  | .geocodeCall => true
  | _ => false

/-- Model-invocation events. -/
def isModelEv : Ev → Bool
  | .modelCall _ => true
  | _ => false

/-- Backoff-delay events. -/
def isWaitEv : Ev → Bool
  | .waitMs _ => true
  | _ => false

/-- Whether the first repair regex `,(\s*[}\]])` matches anywhere: some
comma is followed, after regex whitespace, by a closing brace or bracket. -/
def hasTrailingCommaPat : List Char → Bool
  | [] => false
  | c :: cs =>
    if c = ',' then
      match cs.dropWhile jsRegexWs with
      | b :: _ =>
        if b = '}' ∨ b = ']' then true else hasTrailingCommaPat cs
      | [] => hasTrailingCommaPat cs
    else hasTrailingCommaPat cs

/-- The given fragments occur in the text, in order and without overlap. -/
def containsInOrder : List String → String → Prop
  | [], _ => True
  | h :: hs, s => ∃ a b, s = a ++ h ++ b ∧ containsInOrder hs b

/-- A fixture environment for concrete runs; individual theorems override
fields as needed. -/
def baseEnv : VerifyEnv :=
  { sunApi := .ok
      { sunriseHour := 6, sunriseMinute := 0, sunsetHour := 20, sunsetMinute := 0
      , sunriseIso := "2024-06-01T06:00:00.000Z"
      , sunsetIso := "2024-06-01T20:00:00.000Z" }
  , captureHour := 12
  , captureMinute := 0
  , weather := none
  , geocode := some "Paris, France"
  , imageFetch := some "aW1nZGF0YQ=="
  , videoUpload := .ok "files/abc123"
  , modelAt := fun _ => .throws "model offline"
  , localeTime := fun _ => "12:00:00 PM"
  , parseErrMsg := fun _ => "Unexpected token" }

/-- A reply whose JSON span parses strictly. -/
def okReplyText : String :=
  "\x7b\"status\": \"verified\", \"result\": \"All claims check out\"\x7d"

/-- The parse of `okReplyText`. -/
def okReplyJson : Json :=
  Json.obj [("status", Json.str "verified"), ("result", Json.str "All claims check out")]

example : jsonMatch okReplyText = some okReplyText := rfl

example : jsonParse okReplyText = some okReplyJson := rfl



/-- A live (not soft-deleted) row fixture. -/
def liveRow : UploadRow :=
  { id := "u1", user_id := "alice", file_url := "a.jpg"
  , file_type := FileType.image, description := "a tree", latitude := some 1
  , longitude := some 2, location_source := "exif", location_name := none
  , capture_date := some "2024-01-01T12:00:00", ai_verified := false
  , ai_verification_result := none, verification_status := "unverified"
  , created_at := "2024-01-01", deleted_at := none }

/-- A soft-deleted row fixture. -/
def deletedRow : UploadRow :=
  { id := "u2", user_id := "alice", file_url := "b.jpg"
  , file_type := FileType.image, description := "", latitude := none
  , longitude := none, location_source := "manual", location_name := none
  , capture_date := none, ai_verified := false
  , ai_verification_result := none, verification_status := "unverified"
  , created_at := "2024-01-02", deleted_at := some "2024-02-01" }

/-- A two-row database containing one live and one soft-deleted row. -/
def sampleDb : List UploadRow := [liveRow, deletedRow]

/-- Environment whose model throws on attempt 1, replies junk on attempt
2, and replies a strictly parseable JSON object on attempt 3. -/
def c3Env : VerifyEnv :=
  { baseEnv with
    modelAt := fun a =>
      if a = 1 then ModelCall.throws "boom"
      else if a = 2 then ModelCall.replies "no json here"
      else ModelCall.replies okReplyText }

/-- Environment for the end-to-end daytime-mismatch scenario: capture at
23:00 local against a 06:00-20:00 sun window, model replying with zero
issues on the first attempt. -/
def c6Env : VerifyEnv :=
  { baseEnv with
    captureHour := 23
    modelAt := fun _ => ModelCall.replies okReplyText }

/-- The Level-2 section header, whose label depends on the media kind. -/
def levelTwoHeader (ft : FileType) : String :=
  "🖼️ LEVEL 2 - " ++ (if ft = FileType.video then "VIDEO" else "IMAGE") ++ " Analysis:"

/-- A synthetic parsed model reply with every optional array populated. -/
def c7Json : Json :=
  Json.obj
    [("status", Json.str "verified"),
     ("result", Json.str "Summary of checks"),
     ("analysis", Json.str "Longer analysis text"),
     ("textBasedFindings", Json.arr [Json.str "weather API matches claim"]),
     ("webSearchResults", Json.arr [Json.str "news archive confirms event"]),
     ("sourcesUsed", Json.arr [Json.str "BBC Weather"]),
     ("imageAnalysisFindings", Json.arr [Json.str "bright daylight visible"]),
     ("claimsIdentified", Json.arr [Json.str "[TEXT] sunny afternoon"]),
     ("recommendedActions", Json.arr [Json.str "check local reports"])]

/-- Environment whose image download fails, driving the pipeline into a
terminal failure before any model call. -/
def c9Env : VerifyEnv :=
  { baseEnv with imageFetch := none }

/-! ## Helper lemmas -/

/-- Events emitted by the retry loop are model calls, waits, or remote
deletions, never context-gathering calls. -/
theorem retryFrom_notCtx (m : Nat → ModelCall) (p : String → String)
    (vu : Option String) :
    ∀ r a e, e ∈ (retryFrom m p vu a r).1 → isCtxEv e = false := by
  intro r
  induction r with
  | zero =>
    intro a e he
    simp [retryFrom] at he
  | succ r ih =>
    intro a e he
    rw [retryFrom] at he
    rcases h1 : attemptOutcome p (m a) with msg | parsed
    · rw [h1] at he
      simp only at he
      by_cases h2 : r = 0
      · subst h2
        rw [if_pos rfl] at he
        cases he with
        | head => rfl
        | tail _ he2 =>
          rcases vu with _ | u
          · cases he2
          · cases he2 with
            | head => rfl
            | tail _ he3 => cases he3
      · rw [if_neg h2] at he
        cases he with
        | head => rfl
        | tail _ he2 =>
          cases he2 with
          | head => rfl
          | tail _ he3 => exact ih (a + 1) e he3
    · rw [h1] at he
      cases he with
      | head => rfl
      | tail _ he2 => cases he2

/-- When the truthiness guard of verify.ts line 41 fails, the run emits no
context-gathering event at all. -/
theorem verifyContent_noCtx (env : VerifyEnv) (description imageUrl : String)
    (fileType : FileType) (latitude longitude : Option ℚ)
    (captureDate : Option String)
    (hg : (numTruthy latitude && numTruthy longitude && strTruthy captureDate) = false) :
    ∀ e ∈ (verifyContent env description imageUrl fileType latitude longitude
      captureDate).1, isCtxEv e = false := by
  intro e he
  rcases fileType with _ | _
  · simp only [verifyContent, hg, Bool.false_eq_true, if_false, List.nil_append] at he
    rcases hf : env.imageFetch with _ | b64
    all_goals rw [hf] at he
    · simp only at he
      cases he with
      | head => rfl
      | tail _ he2 => cases he2
    · simp only at he
      rcases hl : (retryFrom env.modelAt env.parseErrMsg none 1 3).2 with m | parsed
      all_goals rw [hl] at he
      all_goals simp only [List.cons_append, List.nil_append] at he
      all_goals cases he with
      | head => rfl
      | tail _ he2 => exact retryFrom_notCtx env.modelAt env.parseErrMsg none 3 1 e he2
  · simp only [verifyContent, hg, Bool.false_eq_true, if_false, List.nil_append] at he
    rcases hf : env.videoUpload with m | uri
    all_goals rw [hf] at he
    · simp only at he
      cases he with
      | head => rfl
      | tail _ he2 => cases he2
    · simp only at he
      rcases hl : (retryFrom env.modelAt env.parseErrMsg (some uri) 1 3).2 with m | parsed
      all_goals rw [hl] at he
      all_goals simp only [List.cons_append, List.nil_append] at he
      all_goals cases he with
      | head => rfl
      | tail _ he2 =>
        rcases List.mem_append.mp he2 with he3 | he3
        · exact retryFrom_notCtx env.modelAt env.parseErrMsg (some uri) 3 1 e he3
        · cases he3 with
          | head => rfl
          | tail _ he4 => cases he4

/-! ## Claim C10 -/

/-- C10: for every call to verifyContent in which latitude equals 0 or
longitude equals 0, or the capture date is null/empty, no contextual
signal at all is gathered — no sunrise/sunset, no weather, and no
reverse-geocoded place name — because the truthiness guard treats a zero
coordinate the same as an absent one. -/
theorem C10_zero_coordinate_or_empty_date_skips_all_context
    (env : VerifyEnv) (description imageUrl : String) (fileType : FileType)
    (latitude longitude : Option ℚ) (captureDate : Option String)
    (h : latitude = some 0 ∨ longitude = some 0 ∨ captureDate = none ∨
      captureDate = some "") :
    Ev.sunCall ∉ (verifyContent env description imageUrl fileType latitude
        longitude captureDate).1 ∧
    Ev.weatherCall ∉ (verifyContent env description imageUrl fileType latitude
        longitude captureDate).1 ∧
    Ev.geocodeCall ∉ (verifyContent env description imageUrl fileType latitude
        longitude captureDate).1 := by
  have hg : (numTruthy latitude && numTruthy longitude && strTruthy captureDate) = false := by
    rcases h with h | h | h | h
    all_goals subst h
    all_goals simp [numTruthy, strTruthy]
  have hmain := verifyContent_noCtx env description imageUrl fileType latitude
    longitude captureDate hg
  refine ⟨fun hc => ?_, fun hc => ?_, fun hc => ?_⟩
  · exact absurd (hmain Ev.sunCall hc) (by decide)
  · exact absurd (hmain Ev.weatherCall hc) (by decide)
  · exact absurd (hmain Ev.geocodeCall hc) (by decide)

/-- Witness for C10 at a concrete input: latitude 0 on the equator, the
other arguments present. -/
theorem C10_zero_coordinate_or_empty_date_skips_all_context_witness :
    Ev.sunCall ∉ (verifyContent baseEnv "sunny day" "photo.jpg" FileType.image
        (some 0) (some 2) (some "2024-06-01T12:00:00")).1 ∧
    Ev.weatherCall ∉ (verifyContent baseEnv "sunny day" "photo.jpg" FileType.image
        (some 0) (some 2) (some "2024-06-01T12:00:00")).1 ∧
    Ev.geocodeCall ∉ (verifyContent baseEnv "sunny day" "photo.jpg" FileType.image
        (some 0) (some 2) (some "2024-06-01T12:00:00")).1 :=
  C10_zero_coordinate_or_empty_date_skips_all_context baseEnv "sunny day"
    "photo.jpg" FileType.image (some 0) (some 2) (some "2024-06-01T12:00:00")
    (Or.inl rfl)

/-! ## Claim C8 -/

/-- C8 counterexample: with latitude and longitude both supplied but the
capture date absent, the claim says reverse geocoding still proceeds; in
the code the single guard `latitude && longitude && captureDate` also
gates the geocode call, so no geocode call is made. -/
theorem C8_counterexample :
    Ev.geocodeCall ∉ (verifyContent baseEnv "a nice view" "photo.jpg"
      FileType.image (some 1) (some 1) none).1 := by
  decide

/-- C8 (amended): when latitude and longitude are both supplied but the
capture date is absent or empty, no weather or sunrise/sunset data is
requested, and reverse geocoding does not proceed either: all three
context signals require latitude, longitude and capture date together. -/
theorem C8_amended_no_capture_date_skips_all_context
    (env : VerifyEnv) (description imageUrl : String) (fileType : FileType)
    (latitude longitude : Option ℚ) (captureDate : Option String)
    (h : captureDate = none ∨ captureDate = some "") :
    Ev.sunCall ∉ (verifyContent env description imageUrl fileType latitude
        longitude captureDate).1 ∧
    Ev.weatherCall ∉ (verifyContent env description imageUrl fileType latitude
        longitude captureDate).1 ∧
    Ev.geocodeCall ∉ (verifyContent env description imageUrl fileType latitude
        longitude captureDate).1 := by
  have hg : (numTruthy latitude && numTruthy longitude && strTruthy captureDate) = false := by
    rcases h with h | h
    all_goals subst h
    all_goals simp [strTruthy]
  have hmain := verifyContent_noCtx env description imageUrl fileType latitude
    longitude captureDate hg
  refine ⟨fun hc => ?_, fun hc => ?_, fun hc => ?_⟩
  · exact absurd (hmain Ev.sunCall hc) (by decide)
  · exact absurd (hmain Ev.weatherCall hc) (by decide)
  · exact absurd (hmain Ev.geocodeCall hc) (by decide)

/-- Witness for the amended C8 at a concrete input with both coordinates
supplied and the capture date absent. -/
theorem C8_amended_no_capture_date_skips_all_context_witness :
    Ev.sunCall ∉ (verifyContent baseEnv "a nice view" "photo.jpg"
        FileType.image (some 1) (some 1) none).1 ∧
    Ev.weatherCall ∉ (verifyContent baseEnv "a nice view" "photo.jpg"
        FileType.image (some 1) (some 1) none).1 ∧
    Ev.geocodeCall ∉ (verifyContent baseEnv "a nice view" "photo.jpg"
        FileType.image (some 1) (some 1) none).1 :=
  C8_amended_no_capture_date_skips_all_context baseEnv "a nice view"
    "photo.jpg" FileType.image (some 1) (some 1) none (Or.inl rfl)

/-! ## Claim C4 -/

/-- C4: whenever the sunrise/sunset lookup succeeds, the derived
`isDaytime` boolean is true iff the capture time-of-day (minutes since
midnight, local frame) falls within the sunrise-to-sunset window, with the
disjunctive test for windows spanning midnight: if sunset > sunrise then
capture in [sunrise, sunset], otherwise capture ≥ sunrise or capture ≤
sunset. -/
theorem C4_isDaytime_window (api : SunApi) (d : SunApiOk)
    (captureHour captureMinute : Nat) (h : api = SunApi.ok d) :
    ((getSunriseSunset api captureHour captureMinute).isDaytime = true) ↔
      (let captureTime := captureHour * 60 + captureMinute
       let sunriseTime := d.sunriseHour * 60 + d.sunriseMinute
       let sunsetTime := d.sunsetHour * 60 + d.sunsetMinute
       if sunsetTime > sunriseTime then
         sunriseTime ≤ captureTime ∧ captureTime ≤ sunsetTime
       else
         sunriseTime ≤ captureTime ∨ captureTime ≤ sunsetTime) := by
  subst h
  simp only [getSunriseSunset]
  split
  · simp [ge_iff_le]
  · simp [ge_iff_le]

/-- Witness for C4: a normal window (sunrise 06:00, sunset 20:00, capture
12:00, daytime) and a midnight-spanning window (sunrise 22:00, sunset
05:00, capture 23:00, daytime via the disjunctive test). -/
theorem C4_isDaytime_window_witness :
    (((getSunriseSunset (SunApi.ok
        { sunriseHour := 6, sunriseMinute := 0, sunsetHour := 20, sunsetMinute := 0
        , sunriseIso := "", sunsetIso := "" }) 12 0).isDaytime = true) ↔
      (6 * 60 + 0 ≤ 12 * 60 + 0 ∧ 12 * 60 + 0 ≤ 20 * 60 + 0)) ∧
    (((getSunriseSunset (SunApi.ok
        { sunriseHour := 22, sunriseMinute := 0, sunsetHour := 5, sunsetMinute := 0
        , sunriseIso := "", sunsetIso := "" }) 23 0).isDaytime = true) ↔
      (22 * 60 + 0 ≤ 23 * 60 + 0 ∨ 23 * 60 + 0 ≤ 5 * 60 + 0)) := by
  constructor
  · have h := C4_isDaytime_window (SunApi.ok
      { sunriseHour := 6, sunriseMinute := 0, sunsetHour := 20, sunsetMinute := 0
      , sunriseIso := "", sunsetIso := "" })
      { sunriseHour := 6, sunriseMinute := 0, sunsetHour := 20, sunsetMinute := 0
      , sunriseIso := "", sunsetIso := "" } 12 0 rfl
    simpa using h
  · have h := C4_isDaytime_window (SunApi.ok
      { sunriseHour := 22, sunriseMinute := 0, sunsetHour := 5, sunsetMinute := 0
      , sunriseIso := "", sunsetIso := "" })
      { sunriseHour := 22, sunriseMinute := 0, sunsetHour := 5, sunsetMinute := 0
      , sunriseIso := "", sunsetIso := "" } 23 0 rfl
    simpa using h

/-! ## Claim C2 -/

/-- A row returned by the single-record load of the POST handler came through
the row-security SELECT filter. -/
theorem verifyPostLoad_mem (db : List UploadRow) (uploadId : String)
    (u : UploadRow) (h : verifyPostLoad db uploadId = some u) :
    u ∈ rlsSelectVisible db := by
  unfold verifyPostLoad at h
  rcases hm : (rlsSelectVisible db).filter (fun v => v.id = uploadId) with _ | ⟨v, tl⟩
  · rw [hm] at h
    simp at h
  · rw [hm] at h
    rcases tl with _ | _
    · simp at h
      subst h
      have : v ∈ (rlsSelectVisible db).filter (fun v => v.id = uploadId) := by
        rw [hm]; exact List.mem_cons_self v []
      exact (List.mem_filter.mp this).1
    · simp at h

/-- C2: an Upload row with a non-null soft-delete timestamp appears in no
read path: not in the map listing, not in the profile listing, not in the
verification POST single-record load, and not in the batch selection of
records awaiting verification. -/
theorem C2_soft_deleted_hidden_from_all_read_paths
    (db : List UploadRow) (u : UploadRow) (t : String)
    (h : u.deleted_at = some t) :
    u ∉ mapPageUploads db ∧
    (∀ uid, u ∉ profilePageUploads db uid) ∧
    (∀ uploadId, verifyPostLoad db uploadId ≠ some u) ∧
    u ∉ verifyBatchSelect db := by
  have hrls : u ∉ rlsSelectVisible db := by
    intro hc
    have := (List.mem_filter.mp hc).2
    rw [h] at this
    simp at this
  refine ⟨fun hc => ?_, fun uid hc => ?_, fun uploadId hc => ?_, fun hc => ?_⟩
  · exact hrls (List.mem_filter.mp hc).1
  · exact hrls (List.mem_filter.mp ((List.mem_filter.mp hc).1)).1
  · exact hrls (verifyPostLoad_mem db uploadId u hc)
  · exact hrls (List.mem_filter.mp (List.mem_of_mem_take hc)).1

/-- Witness for C2: a concrete two-row database containing the
soft-deleted row; that row is invisible to every read path. -/
theorem C2_soft_deleted_hidden_from_all_read_paths_witness :
    deletedRow.deleted_at = some "2024-02-01" ∧
    deletedRow ∉ mapPageUploads sampleDb ∧
    deletedRow ∉ profilePageUploads sampleDb "alice" ∧
    verifyPostLoad sampleDb "u2" ≠ some deletedRow ∧
    deletedRow ∉ verifyBatchSelect sampleDb :=
  ⟨rfl,
   (C2_soft_deleted_hidden_from_all_read_paths sampleDb deletedRow "2024-02-01" rfl).1,
   (C2_soft_deleted_hidden_from_all_read_paths sampleDb deletedRow "2024-02-01" rfl).2.1 "alice",
   (C2_soft_deleted_hidden_from_all_read_paths sampleDb deletedRow "2024-02-01" rfl).2.2.1 "u2",
   (C2_soft_deleted_hidden_from_all_read_paths sampleDb deletedRow "2024-02-01" rfl).2.2.2⟩

/-! ## Claim C1 -/

/-- When all three attempts fail, the retry loop emits its three model
calls with the two backoff waits, deletes the staged video (if any) in its
terminal branch, and propagates the last error. -/
theorem retryFrom_allFail (m : Nat → ModelCall) (p : String → String)
    (vu : Option String) (m1 m2 m3 : String)
    (h1 : attemptOutcome p (m 1) = .error m1)
    (h2 : attemptOutcome p (m 2) = .error m2)
    (h3 : attemptOutcome p (m 3) = .error m3) :
    retryFrom m p vu 1 3 =
      (Ev.modelCall 1 :: Ev.waitMs 1000 :: Ev.modelCall 2 :: Ev.waitMs 2000 ::
        Ev.modelCall 3 :: deleteEvents vu, Except.error m3) := by
  have e3 : retryFrom m p vu 3 1 =
      (Ev.modelCall 3 :: deleteEvents vu, Except.error m3) := by
    rw [retryFrom, h3]
    simp
  have e2 : retryFrom m p vu 2 2 =
      (Ev.modelCall 2 :: Ev.waitMs 2000 :: Ev.modelCall 3 :: deleteEvents vu,
        Except.error m3) := by
    rw [retryFrom, h2]
    simp [e3]
  rw [retryFrom, h1]
  simp [e2]

/-- C1 counterexample: a staged video whose model invocation fails all 3
attempts; the pipeline raises, but the remote file deletion is invoked
twice (retry-loop terminal branch plus outer catch), not exactly once. -/
theorem C1_counterexample :
    ((verifyContent baseEnv "clip" "video.mp4" FileType.video (some 1) (some 1)
        (some "2024-06-01T12:00:00")).1.count (Ev.remoteDelete "files/abc123") = 2) ∧
    (verifyContent baseEnv "clip" "video.mp4" FileType.video (some 1) (some 1)
        (some "2024-06-01T12:00:00")).2 =
      Except.error "Verification failed: model offline" :=
  ⟨by decide, rfl⟩

/-- C1 (amended): for every verification run that staged a video and whose
model invocation fails all 3 attempts, the pipeline raises the last error
to the caller and the remote video deletion is invoked on every such exit
path — never zero times, but exactly twice (once by the terminal branch of
the retry loop and once by the outer error handler), not exactly once. -/
theorem C1_amended_exhausted_retries_raises_and_deletes_twice
    (env : VerifyEnv) (description imageUrl : String)
    (latitude longitude : Option ℚ) (captureDate : Option String)
    (uri m1 m2 m3 : String)
    (hv : env.videoUpload = .ok uri)
    (h1 : attemptOutcome env.parseErrMsg (env.modelAt 1) = .error m1)
    (h2 : attemptOutcome env.parseErrMsg (env.modelAt 2) = .error m2)
    (h3 : attemptOutcome env.parseErrMsg (env.modelAt 3) = .error m3) :
    (verifyContent env description imageUrl FileType.video latitude longitude
        captureDate).2 = Except.error ("Verification failed: " ++ m3) ∧
    ((verifyContent env description imageUrl FileType.video latitude longitude
        captureDate).1.count (Ev.remoteDelete uri)) = 2 := by
  have hloop := retryFrom_allFail env.modelAt env.parseErrMsg (some uri) m1 m2 m3 h1 h2 h3
  constructor
  · simp only [verifyContent, hv, hloop]
  · simp only [verifyContent, hv, hloop]
    by_cases hg : (numTruthy latitude && numTruthy longitude && strTruthy captureDate) = true
    · rw [if_pos hg]
      simp [deleteEvents, List.count_append, List.count_cons]
    · rw [if_neg hg]
      simp [deleteEvents, List.count_append, List.count_cons]

/-- Witness for the amended C1 at the concrete failing environment. -/
theorem C1_amended_exhausted_retries_raises_and_deletes_twice_witness :
    (verifyContent baseEnv "clip" "video.mp4" FileType.video (some 1) (some 1)
        (some "2024-06-01T12:00:00")).2 =
      Except.error ("Verification failed: " ++ "model offline") ∧
    ((verifyContent baseEnv "clip" "video.mp4" FileType.video (some 1) (some 1)
        (some "2024-06-01T12:00:00")).1.count (Ev.remoteDelete "files/abc123")) = 2 :=
  C1_amended_exhausted_retries_raises_and_deletes_twice baseEnv "clip"
    "video.mp4" (some 1) (some 1) (some "2024-06-01T12:00:00")
    "files/abc123" "model offline" "model offline" "model offline"
    rfl rfl rfl rfl

/-! ## Claim C3 -/

/-- When attempts 1 and 2 fail and attempt 3 succeeds, the loop emits
exactly the three model calls with the two backoff waits between them and
returns the attempt-3 parse. -/
theorem retryFrom_failFailOk (m : Nat → ModelCall) (p : String → String)
    (vu : Option String) (m1 m2 : String) (parsed : Json)
    (h1 : attemptOutcome p (m 1) = .error m1)
    (h2 : attemptOutcome p (m 2) = .error m2)
    (h3 : attemptOutcome p (m 3) = .ok parsed) :
    retryFrom m p vu 1 3 =
      ([Ev.modelCall 1, Ev.waitMs 1000, Ev.modelCall 2, Ev.waitMs 2000,
        Ev.modelCall 3], Except.ok parsed) := by
  have e3 : retryFrom m p vu 3 1 = ([Ev.modelCall 3], Except.ok parsed) := by
    rw [retryFrom, h3]
  have e2 : retryFrom m p vu 2 2 =
      ([Ev.modelCall 2, Ev.waitMs 2000, Ev.modelCall 3], Except.ok parsed) := by
    rw [retryFrom, h2]
    simp [e3]
  rw [retryFrom, h1]
  simp [e2]

/-- C3: for every model invocation sequence failing on attempts 1 and 2
and succeeding on attempt 3, the pipeline makes exactly 3 attempts in
order, sleeps 2^(attempt-1) seconds after each failed attempt (1000 ms
after attempt 1, 2000 ms after attempt 2, nothing after the final one),
and returns the result normalized from the attempt-3 parse. -/
theorem C3_retry_two_failures_then_success
    (env : VerifyEnv) (description imageUrl : String)
    (latitude longitude : Option ℚ) (captureDate : Option String)
    (b64 m1 m2 : String) (parsed : Json)
    (hImg : env.imageFetch = some b64)
    (h1 : attemptOutcome env.parseErrMsg (env.modelAt 1) = .error m1)
    (h2 : attemptOutcome env.parseErrMsg (env.modelAt 2) = .error m2)
    (h3 : attemptOutcome env.parseErrMsg (env.modelAt 3) = .ok parsed) :
    (verifyContent env description imageUrl FileType.image latitude longitude
        captureDate).1 =
      (if numTruthy latitude && numTruthy longitude && strTruthy captureDate then
        [Ev.sunCall, Ev.weatherCall, Ev.geocodeCall] else []) ++
      [Ev.imageFetchCall, Ev.modelCall 1, Ev.waitMs 1000, Ev.modelCall 2,
        Ev.waitMs 2000, Ev.modelCall 3] ∧
    (∃ preIssues preFactors,
      (verifyContent env description imageUrl FileType.image latitude longitude
        captureDate).2 =
        Except.ok (normalizeResult parsed FileType.image preIssues preFactors)) := by
  have hloop := retryFrom_failFailOk env.modelAt env.parseErrMsg none m1 m2 parsed h1 h2 h3
  constructor
  · simp only [verifyContent, hImg, hloop]
    by_cases hg : (numTruthy latitude && numTruthy longitude && strTruthy captureDate) = true
    · rw [if_pos hg]
      simp
    · rw [if_neg hg]
      simp
  · refine ⟨(preVerificationChecks
      (if numTruthy latitude && numTruthy longitude && strTruthy captureDate then
        some (getSunriseSunset env.sunApi env.captureHour env.captureMinute)
      else none) description captureDate env.localeTime).1,
      (preVerificationChecks
      (if numTruthy latitude && numTruthy longitude && strTruthy captureDate then
        some (getSunriseSunset env.sunApi env.captureHour env.captureMinute)
      else none) description captureDate env.localeTime).2, ?_⟩
    simp only [verifyContent, hImg, hloop]

set_option maxRecDepth 8192 in
/-- Witness for C3 at a concrete environment: throw, junk reply, then a
parseable reply. -/
theorem C3_retry_two_failures_then_success_witness :
    (verifyContent c3Env "sunny day" "photo.jpg" FileType.image (some 1)
        (some 2) (some "2024-06-01T12:00:00")).1 =
      (if numTruthy (some 1) && numTruthy (some 2) &&
          strTruthy (some "2024-06-01T12:00:00") then
        [Ev.sunCall, Ev.weatherCall, Ev.geocodeCall] else []) ++
      [Ev.imageFetchCall, Ev.modelCall 1, Ev.waitMs 1000, Ev.modelCall 2,
        Ev.waitMs 2000, Ev.modelCall 3] ∧
    (∃ preIssues preFactors,
      (verifyContent c3Env "sunny day" "photo.jpg" FileType.image (some 1)
        (some 2) (some "2024-06-01T12:00:00")).2 =
        Except.ok (normalizeResult okReplyJson FileType.image preIssues preFactors)) :=
  C3_retry_two_failures_then_success c3Env "sunny day" "photo.jpg" (some 1)
    (some 2) (some "2024-06-01T12:00:00") "aW1nZGF0YQ=="
    "boom" "Gemini response did not contain valid JSON. Raw response: no json here"
    okReplyJson rfl rfl rfl rfl

/-! ## Claim C5 -/

/-- C5 counterexample: the string `\x7b"a":",]"\x7d` is already valid
JSON, but the trailing-comma repair regex also fires inside the quoted
string span, so parsing the repaired string yields a different object than
parsing the original. -/
theorem C5_counterexample :
    jsonParse "\x7b\"a\":\",]\"\x7d" = some (Json.obj [("a", Json.str ",]")]) ∧
    jsonParse (fixJson "\x7b\"a\":\",]\"\x7d") =
      some (Json.obj [("a", Json.str "]")]) ∧
    Json.obj [("a", Json.str ",]")] ≠ Json.obj [("a", Json.str "]")] :=
  ⟨rfl, rfl, by simp⟩

/-- If the trailing-comma pattern never occurs, the first repair is the
identity. -/
theorem stripTrailingCommas_id (l : List Char)
    (h : hasTrailingCommaPat l = false) : stripTrailingCommas l = l := by
  induction l with
  | nil => rfl
  | cons c cs ih =>
    rw [hasTrailingCommaPat] at h
    rw [stripTrailingCommas]
    by_cases hc : c = ','
    · rw [if_pos hc] at h ⊢
      rcases hd : cs.dropWhile jsRegexWs with _ | ⟨b, tl⟩
      · rw [hd] at h
        have h2 : hasTrailingCommaPat cs = false := h
        show c :: stripTrailingCommas cs = c :: cs
        rw [ih h2]
      · rw [hd] at h
        have h2 : (if b = '}' ∨ b = ']' then true else hasTrailingCommaPat cs) = false := h
        show (if b = '}' ∨ b = ']' then stripTrailingCommas cs
          else c :: stripTrailingCommas cs) = c :: cs
        by_cases hb : b = '}' ∨ b = ']'
        · rw [if_pos hb] at h2
          exact absurd h2 (by simp)
        · rw [if_neg hb] at h2 ⊢
          rw [ih h2]
    · rw [if_neg hc] at h ⊢
      rw [ih h]

/-- If the input contains no fence character, the `json`-fence strip is
the identity. -/
theorem stripFenceJsonGo_id (fuel : Nat) (l : List Char)
    (h : ∀ c ∈ l, c ≠ tickChar) : stripFenceJsonGo fuel l = l := by
  induction fuel generalizing l with
  | zero => rfl
  | succ fuel ih =>
    cases l with
    | nil => rfl
    | cons c cs =>
      rw [stripFenceJsonGo]
      rw [if_neg (fun hand => (h c (List.mem_cons_self c cs)) hand.1)]
      rw [ih cs (fun x hx => h x (List.mem_cons_of_mem c hx))]

/-- If the input contains no fence character, the bare-fence strip is the
identity. -/
theorem stripFenceGo_id (fuel : Nat) (l : List Char)
    (h : ∀ c ∈ l, c ≠ tickChar) : stripFenceGo fuel l = l := by
  induction fuel generalizing l with
  | zero => rfl
  | succ fuel ih =>
    cases l with
    | nil => rfl
    | cons c cs =>
      rw [stripFenceGo]
      rw [if_neg (fun hand => (h c (List.mem_cons_self c cs)) hand.1)]
      rw [ih cs (fun x hx => h x (List.mem_cons_of_mem c hx))]

/-- If the input contains no literal newline, the newline-escaping repair
is the identity. -/
theorem fixNewlinesGo_id (fuel : Nat) (l : List Char)
    (h : '\n' ∉ l) : fixNewlinesGo fuel l = l := by
  induction fuel generalizing l with
  | zero => rfl
  | succ fuel ih =>
    cases l with
    | nil => rfl
    | cons c cs =>
      have hcs : '\n' ∉ cs := fun hx => h (List.mem_cons_of_mem c hx)
      simp only [fixNewlinesGo]
      by_cases hq : c = '"'
      · rw [if_pos hq]
        rcases hd : cs.dropWhile (fun x => x ≠ '"') with _ | ⟨b, tl⟩
        · rw [ih cs hcs]
        · have hbody : (cs.takeWhile (fun x => x ≠ '"')).contains '\n' = false := by
            by_contra hcontra
            have hmem : '\n' ∈ cs.takeWhile (fun x => x ≠ '"') :=
              List.mem_of_elem_eq_true (by
                cases hvv : (cs.takeWhile (fun x => x ≠ '"')).contains '\n'
                · exact absurd hvv hcontra
                · exact hvv)
            exact hcs ((List.takeWhile_sublist _).mem hmem)
          rw [hbody]
          simp only [Bool.false_eq_true, if_false]
          rw [ih cs hcs]
      · rw [if_neg hq]
        rw [ih cs hcs]

/-- If none of the three repair triggers occurs in the string, the whole
repair pass is the identity. -/
theorem fixJson_id (s : String) (h1 : hasTrailingCommaPat s.data = false)
    (h2 : ∀ c ∈ s.data, c ≠ tickChar) (h3 : '\n' ∉ s.data) :
    fixJson s = s := by
  obtain ⟨d⟩ := s
  simp only [fixJson, stripFenceJson, stripFence, fixNewlinesInStrings] at *
  rw [stripTrailingCommas_id d h1]
  rw [stripFenceJsonGo_id _ d h2]
  rw [stripFenceGo_id _ d h2]
  rw [fixNewlinesGo_id _ d h3]

/-- C5 (amended): the repair pass is not semantics-preserving on all valid
JSON (see the counterexample: the trailing-comma regex fires inside string
literals, and the fence/newline regexes can as well); for every string in
which no repair trigger occurs — no comma whose next non-whitespace
character is a closing brace/bracket, no fence (backquote) character, and
no literal newline — the repair pass leaves the string unchanged, so
parsing the repaired string yields the same parsed object as parsing the
original. -/
theorem C5_amended_repair_preserves_untriggered_json (s : String)
    (hvalid : (jsonParse s).isSome = true)
    (h1 : hasTrailingCommaPat s.data = false)
    (h2 : ∀ c ∈ s.data, c ≠ tickChar)
    (h3 : '\n' ∉ s.data) :
    fixJson s = s ∧ jsonParse (fixJson s) = jsonParse s := by
  have hid := fixJson_id s h1 h2 h3
  exact ⟨hid, by rw [hid]⟩

/-- Witness for the amended C5 on a concrete valid JSON string with no
repair triggers. -/
theorem C5_amended_repair_preserves_untriggered_json_witness :
    ((jsonParse "\x7b\"a\": 10\x7d").isSome = true ∧
      hasTrailingCommaPat "\x7b\"a\": 10\x7d".data = false ∧
      (∀ c ∈ "\x7b\"a\": 10\x7d".data, c ≠ tickChar) ∧
      '\n' ∉ "\x7b\"a\": 10\x7d".data) ∧
    (fixJson "\x7b\"a\": 10\x7d" = "\x7b\"a\": 10\x7d" ∧
      jsonParse (fixJson "\x7b\"a\": 10\x7d") = jsonParse "\x7b\"a\": 10\x7d") :=
  ⟨⟨by decide, by decide, by decide, by decide⟩,
    C5_amended_repair_preserves_untriggered_json "\x7b\"a\": 10\x7d"
      (by decide) (by decide) (by decide) (by decide)⟩

/-! ## Claim C6 -/

/-- A first-attempt success returns the attempt-1 parse with a single
model call. -/
theorem retryFrom_ok1 (m : Nat → ModelCall) (p : String → String)
    (vu : Option String) (parsed : Json)
    (h : attemptOutcome p (m 1) = .ok parsed) :
    retryFrom m p vu 1 3 = ([Ev.modelCall 1], Except.ok parsed) := by
  rw [retryFrom, h]

/-- C6: the final issue list is the pre-computed lexical-mismatch issues
concatenated with the model-reported issues, in that order; in particular,
when the description contains daytime vocabulary and the sun signal
computes nighttime, the pre-verification alert is in the merged list even
if the model reports zero issues. -/
theorem C6_issues_concat_pre_then_model
    (env : VerifyEnv) (description imageUrl : String)
    (latitude longitude : Option ℚ) (captureDate : Option String)
    (b64 : String) (parsed : Json)
    (hImg : env.imageFetch = some b64)
    (hA : attemptOutcome env.parseErrMsg (env.modelAt 1) = .ok parsed) :
    (verifyContent env description imageUrl FileType.image latitude longitude
        captureDate).2 =
      Except.ok (normalizeResult parsed FileType.image
        (preVerificationChecks
          (if numTruthy latitude && numTruthy longitude && strTruthy captureDate then
            some (getSunriseSunset env.sunApi env.captureHour env.captureMinute)
          else none) description captureDate env.localeTime).1
        (preVerificationChecks
          (if numTruthy latitude && numTruthy longitude && strTruthy captureDate then
            some (getSunriseSunset env.sunApi env.captureHour env.captureMinute)
          else none) description captureDate env.localeTime).2) ∧
    (∀ preIssues preFactors,
      (normalizeResult parsed FileType.image preIssues preFactors).issues =
        (if (preIssues ++
            (ensureArray (jsonGet parsed "additionalIssues")).map jsToString).length > 0 then
          some (preIssues ++
            (ensureArray (jsonGet parsed "additionalIssues")).map jsToString)
        else none)) ∧
    ((numTruthy latitude && numTruthy longitude && strTruthy captureDate) = true →
      (getSunriseSunset env.sunApi env.captureHour env.captureMinute).error = none →
      description ≠ "" →
      mentionsDaytime (jsToLowerCase description) = true →
      (getSunriseSunset env.sunApi env.captureHour env.captureMinute).isDaytime = false →
      daytimeAlert (env.localeTime (captureDate.getD "")) ∈
        (preVerificationChecks
          (if numTruthy latitude && numTruthy longitude && strTruthy captureDate then
            some (getSunriseSunset env.sunApi env.captureHour env.captureMinute)
          else none) description captureDate env.localeTime).1 ++
        (ensureArray (jsonGet parsed "additionalIssues")).map jsToString) := by
  have hloop := retryFrom_ok1 env.modelAt env.parseErrMsg none parsed hA
  refine ⟨?_, ?_, ?_⟩
  · simp only [verifyContent, hImg, hloop]
  · intro preIssues preFactors
    rfl
  · intro hg herr hdesc hday hnight
    rw [if_pos hg]
    apply List.mem_append_left
    simp only [preVerificationChecks, herr, Option.isNone_none, if_true]
    rw [if_pos hdesc]
    apply List.mem_append_left
    rw [if_pos ⟨hdesc, hday, hnight⟩]
    exact List.mem_cons_self _ _

/-- Witness for C6: description "sunny afternoon", capture computed as
nighttime; the pre-verification alert is in the merged issue list even
though the model reported zero issues, and the pipeline returns the
normalized first-attempt result. -/
theorem C6_issues_concat_pre_then_model_witness :
    daytimeAlert (c6Env.localeTime ((some "2024-06-01T23:00:00").getD "")) ∈
      (preVerificationChecks
        (if numTruthy (some 1) && numTruthy (some 2) &&
            strTruthy (some "2024-06-01T23:00:00") then
          some (getSunriseSunset c6Env.sunApi c6Env.captureHour c6Env.captureMinute)
        else none) "sunny afternoon" (some "2024-06-01T23:00:00")
        c6Env.localeTime).1 ++
      (ensureArray (jsonGet okReplyJson "additionalIssues")).map jsToString :=
  (C6_issues_concat_pre_then_model c6Env "sunny afternoon" "photo.jpg"
    (some 1) (some 2) (some "2024-06-01T23:00:00") "aW1nZGF0YQ==" okReplyJson
    rfl rfl).2.2 rfl rfl (by decide) (by decide) rfl

/-! ## Claim C7 -/

/-- `jsonBeq` against a string constant is value equality. -/
theorem jsonBeq_str_iff (v : Json) (s : String) :
    jsonBeq v (.str s) = true ↔ v = .str s := by
  cases v
  all_goals simp [jsonBeq]

/-- The `verified` boolean computed by the normalizer equals the strict
comparison of the `status` field with the string `verified`. -/
theorem statusIsVerified_iff (parsed : Json) :
    statusIsVerified parsed = true ↔
      jsonGet parsed "status" = some (.str "verified") := by
  unfold statusIsVerified
  rcases h : jsonGet parsed "status" with _ | v
  · simp
  · simp [jsonBeq_str_iff]

/-- Prefixing a string preserves ordered containment. -/
theorem containsInOrder_prepend (h : String) (hs : List String) (p s : String)
    (hcio : containsInOrder (h :: hs) s) :
    containsInOrder (h :: hs) (p ++ s) := by
  obtain ⟨a, b, heq, hrest⟩ := hcio
  exact ⟨p ++ a, b, by rw [heq]; simp [String.append_assoc], hrest⟩

/-- Ordered containment when the first fragment starts the string. -/
theorem containsInOrder_startHere (h : String) (hs : List String) (q : String)
    (hq : containsInOrder hs q) : containsInOrder (h :: hs) (h ++ q) :=
  ⟨"", q, by simp, hq⟩

/-- With every optional array populated (and the sources all descriptive,
the analysis distinct from the summary), the composited text is exactly
the summary followed by the seven sections in source order. -/
theorem buildResultText_populated (p : Json) (ft : FileType) (r a : String)
    (tb web src imgf clm act : List Json)
    (hr : jsonGet p "result" = some (.str r)) (hrne : r ≠ "")
    (ha : jsonGet p "analysis" = some (.str a)) (hane : a ≠ "") (hdiff : a ≠ r)
    (htb : jsonGet p "textBasedFindings" = some (.arr tb)) (htbne : tb ≠ [])
    (hweb : jsonGet p "webSearchResults" = some (.arr web)) (hwebne : web ≠ [])
    (hsrc : jsonGet p "sourcesUsed" = some (.arr src)) (hsrcne : src ≠ [])
    (hsrcd : ∀ x ∈ src,
      (!(jsStartsWith (jsToString x) "http://") && !(jsStartsWith (jsToString x) "https://")) = true)
    (himgf : jsonGet p "imageAnalysisFindings" = some (.arr imgf)) (himgfne : imgf ≠ [])
    (hclm : jsonGet p "claimsIdentified" = some (.arr clm)) (hclmne : clm ≠ [])
    (hact : jsonGet p "recommendedActions" = some (.arr act)) (hactne : act ≠ []) :
    buildResultText p ft =
      r ++ sectionText "📊 LEVEL 1 - Trusted Source Verification:" "✓ " tb ++
      sectionText "🌐 Web Search Findings:" "• " web ++
      sectionText "📚 Sources:" "• " src ++
      sectionText (levelTwoHeader ft) "• " imgf ++
      sectionText "Claims Identified:" "• " clm ++
      sectionText "⚠️ Recommended Additional Verification:" "• " act ++
      ("\n\nDetailed Analysis:\n" ++ a) := by
  have htb' : tb.length > 0 := List.length_pos.mpr htbne
  have hweb' : web.length > 0 := List.length_pos.mpr hwebne
  have hsrc' : src.length > 0 := List.length_pos.mpr hsrcne
  have himgf' : imgf.length > 0 := List.length_pos.mpr himgfne
  have hclm' : clm.length > 0 := List.length_pos.mpr hclmne
  have hact' : act.length > 0 := List.length_pos.mpr hactne
  have hfilter : src.filter (fun s =>
      !(jsStartsWith (jsToString s) "http://") && !(jsStartsWith (jsToString s) "https://")) = src :=
    List.filter_eq_self.mpr hsrcd
  have hne : (a == r) = false := beq_eq_false_iff_ne.mpr hdiff
  simp only [buildResultText, hr, ha, htb, hweb, hsrc, himgf, hclm, hact,
    ensureArray, jsTruthyOpt, jsTruthy, jsToString, jsStrictEqOpt, jsonBeq,
    Option.getD, hfilter, hne]
  rw [if_pos (by simpa using hrne)]
  rw [if_pos htb', if_pos hweb', if_pos hsrc', if_pos hsrc', if_pos himgf',
    if_pos hclm', if_pos hact']
  have hcond : decide (a ≠ "") = true ∧ True := ⟨by simpa using hane, trivial⟩
  rw [if_pos hcond]
  rfl

/-- C7: for a parsed model JSON with every optional array populated (and
the sources all descriptive, the analysis distinct from the summary), the
composited result text of the normalizer contains the section headers in the
fixed order — Level-1 trusted-source findings, web-search findings,
sources, Level-2 media analysis, claims, recommended actions, detailed
analysis — and the returned verified boolean is true exactly when the
status field is the string `verified`. -/
theorem C7_normalizer_order_and_verified_flag
    (p : Json) (ft : FileType) (preIssues preFactors : List String)
    (r a : String) (tb web src imgf clm act : List Json)
    (hr : jsonGet p "result" = some (.str r)) (hrne : r ≠ "")
    (ha : jsonGet p "analysis" = some (.str a)) (hane : a ≠ "") (hdiff : a ≠ r)
    (htb : jsonGet p "textBasedFindings" = some (.arr tb)) (htbne : tb ≠ [])
    (hweb : jsonGet p "webSearchResults" = some (.arr web)) (hwebne : web ≠ [])
    (hsrc : jsonGet p "sourcesUsed" = some (.arr src)) (hsrcne : src ≠ [])
    (hsrcd : ∀ x ∈ src,
      (!(jsStartsWith (jsToString x) "http://") && !(jsStartsWith (jsToString x) "https://")) = true)
    (himgf : jsonGet p "imageAnalysisFindings" = some (.arr imgf)) (himgfne : imgf ≠ [])
    (hclm : jsonGet p "claimsIdentified" = some (.arr clm)) (hclmne : clm ≠ [])
    (hact : jsonGet p "recommendedActions" = some (.arr act)) (hactne : act ≠ []) :
    ((normalizeResult p ft preIssues preFactors).verified = true ↔
      jsonGet p "status" = some (.str "verified")) ∧
    containsInOrder
      ["📊 LEVEL 1 - Trusted Source Verification:",
       "🌐 Web Search Findings:",
       "📚 Sources:",
       levelTwoHeader ft,
       "Claims Identified:",
       "⚠️ Recommended Additional Verification:",
       "Detailed Analysis:"]
      (normalizeResult p ft preIssues preFactors).result := by
  constructor
  · exact statusIsVerified_iff p
  · have hb := buildResultText_populated p ft r a tb web src imgf clm act
      hr hrne ha hane hdiff htb htbne hweb hwebne hsrc hsrcne hsrcd
      himgf himgfne hclm hclmne hact hactne
    show containsInOrder _ (buildResultText p ft)
    rw [hb]
    have hsplit : ("\n\nDetailed Analysis:\n" : String) =
        "\n\n" ++ ("Detailed Analysis:" ++ "\n") := rfl
    rw [hsplit]
    simp only [sectionText, String.append_assoc]
    repeat
      first
      | exact trivial
      | apply containsInOrder_startHere
      | apply containsInOrder_prepend

/-- Witness for C7 at the fully populated fixture reply. -/
theorem C7_normalizer_order_and_verified_flag_witness :
    ((normalizeResult c7Json FileType.image [] []).verified = true ↔
      jsonGet c7Json "status" = some (Json.str "verified")) ∧
    containsInOrder
      ["📊 LEVEL 1 - Trusted Source Verification:",
       "🌐 Web Search Findings:",
       "📚 Sources:",
       levelTwoHeader FileType.image,
       "Claims Identified:",
       "⚠️ Recommended Additional Verification:",
       "Detailed Analysis:"]
      (normalizeResult c7Json FileType.image [] []).result :=
  C7_normalizer_order_and_verified_flag c7Json FileType.image [] []
    "Summary of checks" "Longer analysis text"
    [Json.str "weather API matches claim"] [Json.str "news archive confirms event"]
    [Json.str "BBC Weather"] [Json.str "bright daylight visible"]
    [Json.str "[TEXT] sunny afternoon"] [Json.str "check local reports"]
    rfl (by decide) rfl (by decide) (by decide)
    rfl (List.cons_ne_nil _ _) rfl (List.cons_ne_nil _ _)
    rfl (List.cons_ne_nil _ _) (by decide)
    rfl (List.cons_ne_nil _ _) rfl (List.cons_ne_nil _ _)
    rfl (List.cons_ne_nil _ _)

/-! ## Claim C9 -/

/-- C9: when a verification attempt fails terminally, both route handlers
persist the record with status exactly `unverified`, verified flag false,
and a result text embedding the underlying error message — in particular
the persisted result is non-null, distinguishing the state from
verification-pending. -/
theorem C9_terminal_failure_persists_unverified
    (env : VerifyEnv) (description imageUrl : String) (fileType : FileType)
    (latitude longitude : Option ℚ) (captureDate : Option String) (m : String)
    (h : (verifyContent env description imageUrl fileType latitude longitude
      captureDate).2 = Except.error m) :
    postVerifyUpdate (verifyContent env description imageUrl fileType latitude
        longitude captureDate).2 =
      { ai_verified := false
      , ai_verification_result := some ("Verification failed: " ++ m)
      , verification_status := Json.str "unverified" } ∧
    (postVerifyUpdate (verifyContent env description imageUrl fileType latitude
        longitude captureDate).2).ai_verification_result ≠ none ∧
    (∃ pre, (postVerifyUpdate (verifyContent env description imageUrl fileType
        latitude longitude captureDate).2).ai_verification_result =
      some (pre ++ m)) := by
  rw [h]
  exact ⟨rfl, by simp [postVerifyUpdate], ⟨"Verification failed: ", rfl⟩⟩

/-- Witness for C9: the concrete failing environment whose image download
fails. -/
theorem C9_terminal_failure_persists_unverified_witness :
    postVerifyUpdate (verifyContent c9Env "a tree" "photo.jpg" FileType.image
        (some 1) (some 2) (some "2024-06-01T12:00:00")).2 =
      { ai_verified := false
      , ai_verification_result := some ("Verification failed: " ++
          "Verification failed: Failed to fetch image from URL: photo.jpg")
      , verification_status := Json.str "unverified" } ∧
    (postVerifyUpdate (verifyContent c9Env "a tree" "photo.jpg" FileType.image
        (some 1) (some 2) (some "2024-06-01T12:00:00")).2).ai_verification_result ≠
      none ∧
    (∃ pre, (postVerifyUpdate (verifyContent c9Env "a tree" "photo.jpg"
        FileType.image (some 1) (some 2)
        (some "2024-06-01T12:00:00")).2).ai_verification_result =
      some (pre ++ "Verification failed: Failed to fetch image from URL: photo.jpg")) :=
  C9_terminal_failure_persists_unverified c9Env "a tree" "photo.jpg"
    FileType.image (some 1) (some 2) (some "2024-06-01T12:00:00")
    "Verification failed: Failed to fetch image from URL: photo.jpg" rfl
